import Mathlib

/-!
Shallow embedding of the two serverless payment handlers of this repository:
the card/ACH checkout-session handler (Stripe) and the crypto invoice handler
(NOWPayments).  Each handler is modelled as a pure function from the
environment, the incoming HTTP request and an oracle describing the outcome of
the single outbound provider call, to the HTTP response together with the
outbound payload actually sent (or none when no call is made).

JavaScript numbers are modelled as rationals; an absent or non-finite value
(undefined, NaN, Infinity) is modelled as none.  JavaScript truthiness is
modelled explicitly for the option types.
-/

set_option autoImplicit false

/-- JavaScript truthiness of an optional string: absent and empty are falsy. -/
def truthyStr : Option String → Bool
  | none => false
  | some s => !s.isEmpty

/-- JavaScript truthiness of an optional number: absent, NaN and 0 are falsy. -/
def truthyNum : Option ℚ → Bool
  | none => false
  | some q => q != 0

/-- JavaScript logical-or on optional strings. -/
def jsOrStr (a b : Option String) : Option String :=
  if truthyStr a then a else b

/-- JavaScript logical-or on optional numbers. -/
def jsOrNum (a b : Option ℚ) : Option ℚ :=
  if truthyNum a then a else b

/-- Multiplication where an absent or non-finite operand contaminates the result. -/
def jsMul (a b : Option ℚ) : Option ℚ :=
  match a, b with
  | some x, some y => some (x * y)
  | _, _ => none

/-- Division; an absent operand or a zero divisor gives a non-finite result. -/
def jsDiv (a b : Option ℚ) : Option ℚ :=
  match a, b with
  | some x, some y => if y = 0 then none else some (x / y)
  | _, _ => none

/-- JavaScript Math.round on a finite value: floor of the value plus one half. -/
def jsRoundQ (q : ℚ) : ℤ := ⌊q + 1/2⌋

/-- JavaScript Math.round lifted to possibly non-finite values. -/
def jsRoundO (a : Option ℚ) : Option ℤ := a.map jsRoundQ

/-- Template-string interpolation of a possibly undefined value. -/
def jsStr (a : Option String) : String := a.getD "undefined"

/-- The truthiness test `x && x > 0` used for the shipping and insurance costs. -/
def positiveNum (a : Option ℚ) : Bool :=
  truthyNum a && decide (0 < a.getD 0)

/-- Strip one trailing slash, as `origin.replace` with a slash-anchor regex does. -/
def stripTrailingSlash (s : String) : String :=
  if s.endsWith "/" then s.dropRight 1 else s

/-- The toUpperCase string method, character by character. -/
def strToUpper (s : String) : String := String.mk (s.data.map Char.toUpper)

/-- The toLowerCase string method, character by character. -/
def strToLower (s : String) : String := String.mk (s.data.map Char.toLower)

/-- The `response.ok` predicate of fetch: status in the 200 to 299 range. -/
def responseOk (status : Nat) : Bool :=
  decide (200 ≤ status) && decide (status ≤ 299)

/-! ## Request data model -/

/-- The `formData.pricing` object. -/
structure Pricing where
  total : Option ℚ
  currency : Option String
  subtotal : Option ℚ
  shipping : Option ℚ
  insurance : Option ℚ

/-- The `formData.product` object. -/
structure Product where
  name : Option String
  specs : Option String
  quantity : Option ℚ
  basePrice : Option ℚ
  imageUrl : Option String

/-- The `formData.customer` object. -/
structure Customer where
  firstName : Option String
  lastName : Option String
  email : Option String
  phone : Option String

/-- The `formData.shipping` object. -/
structure ShippingChoice where
  method : Option String

/-- The `formData` object of the request body. -/
structure FormData where
  pricing : Option Pricing
  product : Option Product
  customer : Option Customer
  orderRef : Option String
  shipping : Option ShippingChoice

/-- The parsed JSON request body. -/
structure ReqBody where
  formData : Option FormData
  paymentType : Option String

/-- The request headers the handlers consult. -/
structure ReqHeaders where
  origin : Option String
  referer : Option String

/-- An incoming HTTP request. -/
structure HttpRequest where
  method : String
  headers : ReqHeaders
  body : ReqBody

/-- The environment variables the handlers consult. -/
structure Env where
  NOWPAYMENTS_API_KEY : Option String
  STRIPE_SECRET_KEY : Option String
  NODE_ENV : Option String

/-! ## Response data model -/

/-- The JSON body of a response sent back to the client. -/
inductive RespBody where
  | empty
  | err (error : String) (details : Option String) (etype : Option String)
      (param : Option String)
  | cryptoOk (invoice_url : String) (invoice_id : Option String)
      (order_id : Option String) (created_at : Option String)
      (pay_address : Option String) (pay_amount : Option ℚ)
      (pay_currency : Option String)
  | stripeOk (url : Option String) (sessionId : Option String)

/-- An outgoing HTTP response. -/
structure HttpResponse where
  status : Nat
  headers : List (String × String)
  body : RespBody

/-- The three CORS headers both handlers set before anything else. -/
def corsHeaders : List (String × String) :=
  [("Access-Control-Allow-Origin", "*"),
   ("Access-Control-Allow-Methods", "POST, OPTIONS"),
   ("Access-Control-Allow-Headers", "Content-Type")]

/-- Build a response; the CORS headers are already set on `res` at this point. -/
def mkResp (status : Nat) (body : RespBody) : HttpResponse :=
  { status := status, headers := corsHeaders, body := body }

/-- An error body carrying only a message. -/
def jsonErr (msg : String) : RespBody := .err msg none none none

/-- Is a response body an error object? -/
def isErrBody : RespBody → Bool
  | .err _ _ _ _ => true
  | _ => false

/-- The base URL both handlers derive from the Origin or Referer header,
falling back to the hardcoded site origin, with a trailing slash stripped. -/
def requestBaseUrl (req : HttpRequest) : String :=
  stripTrailingSlash
    ((jsOrStr (jsOrStr req.headers.origin req.headers.referer)
      (some "https://weselliphones.com")).getD "")

/-- Message of the TypeError raised when `pricing.currency` is undefined and
`toLowerCase` is called on it. -/
def typeErrorCurrencyMsg : String :=
  "Cannot read properties of undefined reading toLowerCase"

/-! ## Crypto handler (NOWPayments invoice creation) -/

/-- The parsed body of a NOWPayments API response. -/
structure NPBody where
  invoice_url : Option String
  id : Option String
  order_id : Option String
  created_at : Option String
  pay_address : Option String
  pay_amount : Option ℚ
  pay_currency : Option String
  message : Option String

/-- Outcome of the `fetch` call: either it throws an error carrying name, code
and message fields, or it yields a status and a body (none when the body text
does not parse as JSON). -/
inductive FetchOutcome where
  | thrown (name : Option String) (code : Option String) (message : Option String)
  | response (status : Nat) (parsed : Option NPBody)

/-- The invoice payload sent to the NOWPayments API. -/
structure InvoiceData where
  price_amount : Option ℚ
  price_currency : String
  order_id : Option String
  order_description : String
  ipn_callback_url : String
  success_url : String
  cancel_url : String
  is_fixed_rate : Bool
  is_fee_paid_by_user : Bool

/-- Build the invoice payload from validated form data. -/
def buildInvoiceData (baseUrl : String) (fd : FormData) (pricing : Pricing)
    (product : Product) (curr : String) : InvoiceData :=
  { price_amount := pricing.total
    price_currency := strToLower curr
    order_id := fd.orderRef
    order_description :=
      (jsStr product.name ++ " " ++
        (if truthyStr product.specs then "- " ++ product.specs.getD "" else "")).trim
    ipn_callback_url := baseUrl ++ "/api/crypto-webhook"
    success_url := baseUrl ++ "/success.html?ref=" ++ jsStr fd.orderRef
    cancel_url := baseUrl ++ "/payment.html"
    is_fixed_rate := true
    is_fee_paid_by_user := false }

/-- The crypto handler up to (and excluding) the outbound fetch: either an
early response, or the invoice payload for the call.  Reading `toLowerCase`
on an undefined currency throws a TypeError that the generic catch turns into
a 500. -/
def cryptoPrepare (env : Env) (req : HttpRequest) : HttpResponse ⊕ InvoiceData :=
  if req.method = "OPTIONS" then .inl (mkResp 200 .empty)
  else if req.method ≠ "POST" then .inl (mkResp 405 (jsonErr "Method not allowed"))
  else
    match req.body.formData with
    | none => .inl (mkResp 400 (jsonErr "Missing required form data"))
    | some fd =>
      match fd.pricing, fd.product, fd.customer with
      | some pricing, some product, some _ =>
        if !truthyStr env.NOWPAYMENTS_API_KEY then
          .inl (mkResp 500 (jsonErr "Payment system configuration error"))
        else
          match pricing.currency with
          | none =>
            .inl (mkResp 500 (.err "Failed to process crypto payment. Please try again."
              (if env.NODE_ENV = some "development" then some typeErrorCurrencyMsg else none)
              none none))
          | some curr =>
            .inr (buildInvoiceData (requestBaseUrl req) fd pricing product curr)
      | _, _, _ => .inl (mkResp 400 (jsonErr "Missing required form data"))

/-- The crypto handler after the outbound fetch: response and catch handling. -/
def cryptoAfter (env : Env) (outcome : FetchOutcome) : HttpResponse :=
  match outcome with
  | .thrown name code message =>
    if name = some "FetchError" ∨ code = some "ENOTFOUND" then
      mkResp 503 (jsonErr "Payment service temporarily unavailable. Please try again.")
    else if code = some "ETIMEDOUT" ∨ code = some "ECONNREFUSED" then
      mkResp 503 (jsonErr "Connection timeout. Please check your internet connection and try again.")
    else
      mkResp 500 (.err "Failed to process crypto payment. Please try again."
        (if env.NODE_ENV = some "development" then message else none) none none)
  | .response status parsed =>
    match parsed with
    | none => mkResp 500 (jsonErr "Invalid response from payment processor")
    | some data =>
      if !responseOk status then
        if status = 401 then
          mkResp 500 (jsonErr "Payment system authentication failed. Please contact support.")
        else if status = 400 then
          mkResp 400 (.err "Invalid payment details. Please check your information."
            (some ((jsOrStr data.message (some "Invalid request parameters")).getD ""))
            none none)
        else
          mkResp status (.err "Failed to create crypto payment"
            (some ((jsOrStr data.message (some "Please try again or contact support")).getD ""))
            none none)
      else
        if !truthyStr data.invoice_url then
          mkResp 500 (jsonErr "Invalid payment response received")
        else
          mkResp 200 (.cryptoOk (data.invoice_url.getD "") data.id data.order_id
            data.created_at data.pay_address data.pay_amount data.pay_currency)

/-- One run of the crypto handler: its response and the outbound call made. -/
structure CryptoRun where
  response : HttpResponse
  call : Option InvoiceData

/-- The crypto invoice handler. -/
def createCryptoPayment (env : Env) (req : HttpRequest) (outcome : FetchOutcome) :
    CryptoRun :=
  match cryptoPrepare env req with
  | .inl r => ⟨r, none⟩
  | .inr inv => ⟨cryptoAfter env outcome, some inv⟩

/-! ## Card and ACH handler (Stripe checkout session) -/

/-- One Stripe line item as assembled by the handler. -/
structure LineItem where
  currency : String
  name : Option String
  description : String
  images : List String
  unit_amount : Option ℤ
  quantity : ℚ

/-- Build the line items: the product item, then a shipping item when the
shipping cost is truthy and positive, then an insurance item likewise. -/
def buildLineItems (fd : FormData) (pricing : Pricing) (product : Product)
    (curr : String) : List LineItem :=
  let subtotal := jsOrNum pricing.subtotal (jsMul product.basePrice product.quantity)
  let perItemPrice := jsRoundO (jsMul (jsDiv subtotal product.quantity) (some 100))
  let isExpress : Bool := (fd.shipping.bind ShippingChoice.method) == some "express"
  [{ currency := strToLower curr
     name := product.name
     description := (jsOrStr product.specs (some "")).getD ""
     images := if truthyStr product.imageUrl then [product.imageUrl.getD ""] else []
     unit_amount := perItemPrice
     quantity := (jsOrNum product.quantity (some 1)).getD 1 }]
  ++ (if positiveNum pricing.shipping then
      [{ currency := strToLower curr
         name := some (if isExpress then "Express Shipping (2-5 days)" else "Standard Shipping")
         description := if isExpress then "Fast delivery" else "Standard delivery"
         images := []
         unit_amount := jsRoundO (jsMul pricing.shipping (some 100))
         quantity := 1 }] else [])
  ++ (if positiveNum pricing.insurance then
      [{ currency := strToLower curr
         name := some "Order Insurance"
         description := "Protection for your order"
         images := []
         unit_amount := jsRoundO (jsMul pricing.insurance (some 100))
         quantity := 1 }] else [])

/-- The checkout-session payload sent to Stripe. -/
structure SessionConfig where
  line_items : List LineItem
  customer_email : Option String
  meta_orderRef : Option String
  meta_customerName : String
  meta_phone : Option String
  meta_shippingMethod : String
  meta_insurance : String
  success_url : String
  cancel_url : String
  payment_method_types : List String
  ach_financial_connections : Bool
  allowed_countries : List String

/-- Build the session payload from validated form data; `ach` says whether the
ACH branch configured bank-account payment. -/
def buildSessionConfig (baseUrl : String) (fd : FormData) (pricing : Pricing)
    (product : Product) (curr : String) (ach : Bool) : SessionConfig :=
  { line_items := buildLineItems fd pricing product curr
    customer_email := fd.customer.bind Customer.email
    meta_orderRef := fd.orderRef
    meta_customerName :=
      jsStr (fd.customer.bind Customer.firstName) ++ " " ++
        jsStr (fd.customer.bind Customer.lastName)
    meta_phone := fd.customer.bind Customer.phone
    meta_shippingMethod :=
      (jsOrStr (fd.shipping.bind ShippingChoice.method) (some "standard")).getD ""
    meta_insurance := if truthyNum pricing.insurance then "yes" else "no"
    success_url := baseUrl ++ "/success.html?session_id={CHECKOUT_SESSION_ID}&ref=" ++
      jsStr fd.orderRef
    cancel_url := baseUrl ++ "/payment.html"
    payment_method_types := if ach then ["us_bank_account"] else ["card"]
    ach_financial_connections := ach
    allowed_countries :=
      ["US", "CA", "GB", "AU", "PL", "FR", "ES", "DE", "IT", "NL", "BE", "AT", "IE", "PT"] }

/-- Outcome of `stripe.checkout.sessions.create`: a session, or a thrown error
carrying message, type, param, raw message and code fields. -/
inductive StripeOutcome where
  | thrown (message : Option String) (etype : Option String) (param : Option String)
      (rawMessage : Option String) (code : Option String)
  | session (url : Option String) (id : Option String)

/-- The card/ACH handler up to (and excluding) the provider call: either an
early response, or the session payload for the call. -/
def stripePrepare (env : Env) (req : HttpRequest) : HttpResponse ⊕ SessionConfig :=
  if req.method = "OPTIONS" then .inl (mkResp 200 .empty)
  else if req.method ≠ "POST" then .inl (mkResp 405 (jsonErr "Method not allowed"))
  else
    match req.body.formData with
    | none => .inl (mkResp 400 (jsonErr "Missing required form data"))
    | some fd =>
      match fd.pricing, fd.product with
      | some pricing, some product =>
        if !truthyStr env.STRIPE_SECRET_KEY then
          .inl (mkResp 500 (jsonErr "Payment system configuration error"))
        else
          match pricing.currency with
          | none => .inl (mkResp 400 (.err typeErrorCurrencyMsg none none none))
          | some curr =>
            if req.body.paymentType.getD "card" = "ach" then
              if strToUpper curr ≠ "USD" then
                .inl (mkResp 400 (jsonErr "ACH payments only support USD currency."))
              else
                .inr (buildSessionConfig (requestBaseUrl req) fd pricing product curr true)
            else
              .inr (buildSessionConfig (requestBaseUrl req) fd pricing product curr false)
      | _, _ => .inl (mkResp 400 (jsonErr "Missing required form data"))

/-- The card/ACH handler after the provider call: success mapping and the
catch block, which answers 400 for every thrown error. -/
def stripeAfter (outcome : StripeOutcome) : HttpResponse :=
  match outcome with
  | .session url id => mkResp 200 (.stripeOk url id)
  | .thrown message etype param rawMessage _code =>
    mkResp 400 (.err ((jsOrStr message (some "Payment processing failed")).getD "")
      rawMessage etype param)

/-- One run of the card/ACH handler: its response and the outbound call made. -/
structure StripeRun where
  response : HttpResponse
  call : Option SessionConfig

/-- The card/ACH checkout-session handler. -/
def createStripeSession (env : Env) (req : HttpRequest) (outcome : StripeOutcome) :
    StripeRun :=
  match stripePrepare env req with
  | .inl r => ⟨r, none⟩
  | .inr cfg => ⟨stripeAfter outcome, some cfg⟩

/-- The DNS-resolution, timeout and connection-refused error classes, as the
code distinguishes them by the error code field. -/
def networkClassCode (code : Option String) : Prop :=
  code = some "ENOTFOUND" ∨ code = some "ETIMEDOUT" ∨ code = some "ECONNREFUSED"

/-! ## Concrete fixtures -/

/-- Environment with both provider credentials configured. -/
def envBoth : Env :=
  { NOWPAYMENTS_API_KEY := some "np-test-key"
    STRIPE_SECRET_KEY := some "sk-test-key"
    NODE_ENV := none }

/-- Environment with no provider credential configured. -/
def envNone : Env :=
  { NOWPAYMENTS_API_KEY := none, STRIPE_SECRET_KEY := none, NODE_ENV := none }

/-- A fully populated pricing object. -/
def fullPricing : Pricing :=
  { total := some 1999, currency := some "USD", subtotal := some 1950
    shipping := some 25, insurance := some 10 }

/-- A fully populated product object. -/
def fullProduct : Product :=
  { name := some "Phone 15 Pro", specs := some "256GB", quantity := some 2
    basePrice := some 975, imageUrl := some "https://example.com/p.png" }

/-- A fully populated customer object. -/
def fullCustomer : Customer :=
  { firstName := some "Ada", lastName := some "Lovelace"
    email := some "ada@example.com", phone := some "+15551234" }

/-- A fully populated form-data object. -/
def fullFormData : FormData :=
  { pricing := some fullPricing, product := some fullProduct
    customer := some fullCustomer, orderRef := some "ORD-1"
    shipping := some { method := some "express" } }

/-- A well-formed POST request. -/
def fullReq : HttpRequest :=
  { method := "POST"
    headers := { origin := some "https://shop.example/", referer := none }
    body := { formData := some fullFormData, paymentType := none } }

/-- A POST request with an empty body. -/
def emptyPostReq : HttpRequest :=
  { method := "POST", headers := { origin := none, referer := none }
    body := { formData := none, paymentType := none } }

/-- An upstream error body carrying only a message. -/
def npMsgBody : NPBody :=
  { invoice_url := none, id := none, order_id := none, created_at := none
    pay_address := none, pay_amount := none, pay_currency := none
    message := some "Too many requests" }

/-- A successful upstream invoice body. -/
def npGoodBody : NPBody :=
  { invoice_url := some "https://nowpayments.example/payment/inv1"
    id := some "inv-1", order_id := some "ORD-1", created_at := some "2026-01-01"
    pay_address := some "addr", pay_amount := some (3/100)
    pay_currency := some "btc", message := none }


/-! ## Helper lemmas -/

theorem crypto_call_response (env : Env) (req : HttpRequest) (oc : FetchOutcome)
    (h : (createCryptoPayment env req oc).call.isSome = true) :
    (createCryptoPayment env req oc).response = cryptoAfter env oc := by
  unfold createCryptoPayment at h ⊢
  revert h
  cases cryptoPrepare env req with
  | inl r => intro h; exact Bool.noConfusion h
  | inr inv => intro _; rfl

theorem stripe_call_response (env : Env) (req : HttpRequest) (oc : StripeOutcome)
    (h : (createStripeSession env req oc).call.isSome = true) :
    (createStripeSession env req oc).response = stripeAfter oc := by
  unfold createStripeSession at h ⊢
  revert h
  cases stripePrepare env req with
  | inl r => intro h; exact Bool.noConfusion h
  | inr cfg => intro _; rfl

theorem crypto_call_prepare (env : Env) (req : HttpRequest) (oc : FetchOutcome)
    (inv : InvoiceData) (h : (createCryptoPayment env req oc).call = some inv) :
    cryptoPrepare env req = .inr inv := by
  unfold createCryptoPayment at h
  cases hp : cryptoPrepare env req with
  | inl r => rw [hp] at h; simp at h
  | inr inv2 => rw [hp] at h; simp at h; rw [h]

theorem stripe_call_prepare (env : Env) (req : HttpRequest) (oc : StripeOutcome)
    (cfg : SessionConfig) (h : (createStripeSession env req oc).call = some cfg) :
    stripePrepare env req = .inr cfg := by
  unfold createStripeSession at h
  cases hp : stripePrepare env req with
  | inl r => rw [hp] at h; simp at h
  | inr cfg2 => rw [hp] at h; simp at h; rw [h]

theorem cryptoPrepare_inl_spec (env : Env) (req : HttpRequest) (r : HttpResponse)
    (h : cryptoPrepare env req = .inl r) :
    r.headers = corsHeaders
    ∧ (isErrBody r.body = false ∨ r.status ∈ ([400, 405, 500] : List Nat)) := by
  unfold cryptoPrepare at h
  repeat' split at h
  all_goals first
    | exact Sum.noConfusion h
    | (injection h with h2; subst h2; exact ⟨rfl, by decide⟩)

theorem stripePrepare_inl_spec (env : Env) (req : HttpRequest) (r : HttpResponse)
    (h : stripePrepare env req = .inl r) :
    r.headers = corsHeaders
    ∧ (isErrBody r.body = false ∨ r.status ∈ ([400, 405, 500] : List Nat)) := by
  unfold stripePrepare at h
  repeat' split at h
  all_goals first
    | exact Sum.noConfusion h
    | (injection h with h2; subst h2; exact ⟨rfl, by decide⟩)

theorem cryptoAfter_headers (env : Env) (oc : FetchOutcome) :
    (cryptoAfter env oc).headers = corsHeaders := by
  unfold cryptoAfter
  repeat' split
  all_goals rfl

theorem stripeAfter_headers (oc : StripeOutcome) :
    (stripeAfter oc).headers = corsHeaders := by
  unfold stripeAfter
  repeat' split
  all_goals rfl

theorem stripeAfter_spec (oc : StripeOutcome) :
    isErrBody (stripeAfter oc).body = false ∨ (stripeAfter oc).status = 400 := by
  cases oc with
  | session url id => left; rfl
  | thrown message etype param rawMessage code => right; rfl

theorem cryptoAfter_spec (env : Env) (oc : FetchOutcome) :
    isErrBody (cryptoAfter env oc).body = false
    ∨ (cryptoAfter env oc).status ∈ ([400, 405, 500, 503] : List Nat)
    ∨ ∃ s data, oc = .response s (some data) ∧ (cryptoAfter env oc).status = s
        ∧ responseOk s = false ∧ s ≠ 400 ∧ s ≠ 401 := by
  cases oc with
  | thrown name code message =>
    right; left
    simp only [cryptoAfter]
    split
    · exact (by decide : (503 : Nat) ∈ ([400, 405, 500, 503] : List Nat))
    · split
      · exact (by decide : (503 : Nat) ∈ ([400, 405, 500, 503] : List Nat))
      · exact (by decide : (500 : Nat) ∈ ([400, 405, 500, 503] : List Nat))
  | response status parsed =>
    cases parsed with
    | none =>
      right; left
      exact (by decide : (500 : Nat) ∈ ([400, 405, 500, 503] : List Nat))
    | some data =>
      simp only [cryptoAfter]
      cases hok : responseOk status with
      | true =>
        cases hurl : truthyStr data.invoice_url with
        | true => left; rfl
        | false =>
          right; left
          exact (by decide : (500 : Nat) ∈ ([400, 405, 500, 503] : List Nat))
      | false =>
        by_cases h401 : status = 401
        · subst h401
          right; left
          exact (by decide : (500 : Nat) ∈ ([400, 405, 500, 503] : List Nat))
        · by_cases h400 : status = 400
          · subst h400
            right; left
            exact (by decide : (400 : Nat) ∈ ([400, 405, 500, 503] : List Nat))
          · right; right
            refine ⟨status, data, rfl, ?_, hok, h400, h401⟩
            rw [if_neg h401, if_neg h400]
            rfl

/-! ## Claim theorems -/

/-- C9: every response produced by either handler, whether for OPTIONS, a rejected
method, a validation or upstream error, or success, carries the CORS headers
Access-Control-Allow-Origin *, Access-Control-Allow-Methods POST, OPTIONS and
Access-Control-Allow-Headers Content-Type. -/
theorem C9_cors_headers (env : Env) (req : HttpRequest) (ocC : FetchOutcome)
    (ocS : StripeOutcome) :
    (createCryptoPayment env req ocC).response.headers = corsHeaders
    ∧ (createStripeSession env req ocS).response.headers = corsHeaders := by
  constructor
  · unfold createCryptoPayment
    cases h : cryptoPrepare env req with
    | inl r => exact (cryptoPrepare_inl_spec env req r h).1
    | inr inv => exact cryptoAfter_headers env ocC
  · unfold createStripeSession
    cases h : stripePrepare env req with
    | inl r => exact (stripePrepare_inl_spec env req r h).1
    | inr cfg => exact stripeAfter_headers ocS

/-- C1 counterexample: a connection-refused class failure of the provider call on
the card/ACH endpoint is answered with status 400, not 503, refuting the claim
that either endpoint answers such failures with 503. -/
theorem C1_counterexample :
    (createStripeSession envBoth fullReq
      (.thrown (some "connect ECONNREFUSED 127.0.0.1:443") none none none
        (some "ECONNREFUSED"))).call.isSome = true
    ∧ (createStripeSession envBoth fullReq
      (.thrown (some "connect ECONNREFUSED 127.0.0.1:443") none none none
        (some "ECONNREFUSED"))).response.status = 400
    ∧ (createStripeSession envBoth fullReq
      (.thrown (some "connect ECONNREFUSED 127.0.0.1:443") none none none
        (some "ECONNREFUSED"))).response.status ≠ 503 :=
  ⟨rfl, rfl, by decide⟩

/-- C1 (amended): a DNS-resolution, timeout or connection-refused class failure of
the outbound call makes the crypto endpoint respond 503, while the card/ACH
endpoint responds 400 to every failed provider call, network-class failures
included. -/
theorem C1_network_failure_status :
    (∀ (env : Env) (req : HttpRequest) (name code msg : Option String),
      networkClassCode code →
      (createCryptoPayment env req (.thrown name code msg)).call.isSome = true →
      (createCryptoPayment env req (.thrown name code msg)).response.status = 503)
    ∧ (∀ (env : Env) (req : HttpRequest)
        (message etype param rawMessage code : Option String),
      (createStripeSession env req
        (.thrown message etype param rawMessage code)).call.isSome = true →
      (createStripeSession env req
        (.thrown message etype param rawMessage code)).response.status = 400) := by
  constructor
  · intro env req name code msg hnc hcall
    rw [crypto_call_response env req _ hcall]
    simp only [cryptoAfter]
    rcases hnc with h | h | h
    · subst h
      rw [if_pos (Or.inr rfl)]
      rfl
    · subst h
      by_cases hn : name = some "FetchError"
      · rw [if_pos (Or.inl hn)]; rfl
      · rw [if_neg (not_or.mpr
            ⟨hn, (by decide : ¬(some "ETIMEDOUT" = some "ENOTFOUND"))⟩),
          if_pos (Or.inl rfl)]
        rfl
    · subst h
      by_cases hn : name = some "FetchError"
      · rw [if_pos (Or.inl hn)]; rfl
      · rw [if_neg (not_or.mpr
            ⟨hn, (by decide : ¬(some "ECONNREFUSED" = some "ENOTFOUND"))⟩),
          if_pos (Or.inr rfl)]
        rfl
  · intro env req message etype param rawMessage code hcall
    rw [stripe_call_response env req _ hcall]
    rfl

/-- C1 witness: the amended statement applied at concrete inputs. -/
theorem C1_network_failure_status_witness :
    (createCryptoPayment envBoth fullReq
      (.thrown (some "FetchError") (some "ENOTFOUND")
        (some "getaddrinfo ENOTFOUND api.nowpayments.example"))).response.status = 503
    ∧ (createStripeSession envBoth fullReq
      (.thrown (some "Request timed out") none none none
        (some "ETIMEDOUT"))).response.status = 400 :=
  ⟨C1_network_failure_status.1 envBoth fullReq _ _ _ (Or.inl rfl) rfl,
   C1_network_failure_status.2 envBoth fullReq _ _ _ _ _ rfl⟩

/-- A GET request, rejected by the method check. -/
def getReq : HttpRequest :=
  { method := "GET", headers := { origin := none, referer := none }
    body := { formData := none, paymentType := none } }

/-- C2 counterexample: an upstream 429 with a parsable body is passed through as
status 429 by the crypto endpoint, an error status outside 400, 500 and 503. -/
theorem C2_counterexample :
    isErrBody (createCryptoPayment envBoth fullReq
      (.response 429 (some npMsgBody))).response.body = true
    ∧ (createCryptoPayment envBoth fullReq
      (.response 429 (some npMsgBody))).response.status = 429
    ∧ (createCryptoPayment envBoth fullReq
      (.response 429 (some npMsgBody))).response.status ∉ ([400, 500, 503] : List Nat) :=
  ⟨rfl, rfl, by decide⟩

/-- C2 (amended): every error response of the card/ACH endpoint has status 400,
405 or 500; every error response of the crypto endpoint has status 400, 405, 500
or 503, or is the pass-through of a non-2xx upstream status other than 400 and
401 received with a parsable body. -/
theorem C2_error_status_range (env : Env) (req : HttpRequest) (ocS : StripeOutcome)
    (ocC : FetchOutcome) :
    (isErrBody (createStripeSession env req ocS).response.body = true →
      (createStripeSession env req ocS).response.status ∈ ([400, 405, 500] : List Nat))
    ∧ (isErrBody (createCryptoPayment env req ocC).response.body = true →
      ((createCryptoPayment env req ocC).response.status ∈ ([400, 405, 500, 503] : List Nat)
       ∨ ∃ s data, ocC = .response s (some data)
           ∧ (createCryptoPayment env req ocC).response.status = s
           ∧ responseOk s = false ∧ s ≠ 400 ∧ s ≠ 401)) := by
  constructor
  · unfold createStripeSession
    cases h : stripePrepare env req with
    | inl r =>
      intro hb
      have hb2 : isErrBody r.body = true := hb
      rcases (stripePrepare_inl_spec env req r h).2 with hfalse | hmem
      · rw [hb2] at hfalse; exact Bool.noConfusion hfalse
      · exact hmem
    | inr cfg =>
      intro hb
      have hb2 : isErrBody (stripeAfter ocS).body = true := hb
      rcases stripeAfter_spec ocS with hfalse | h400
      · rw [hb2] at hfalse; exact Bool.noConfusion hfalse
      · show (stripeAfter ocS).status ∈ _
        rw [h400]; decide
  · unfold createCryptoPayment
    cases h : cryptoPrepare env req with
    | inl r =>
      intro hb
      have hb2 : isErrBody r.body = true := hb
      rcases (cryptoPrepare_inl_spec env req r h).2 with hfalse | hmem
      · rw [hb2] at hfalse; exact Bool.noConfusion hfalse
      · left
        show r.status ∈ _
        simp only [List.mem_cons, List.not_mem_nil, or_false] at hmem ⊢
        tauto
    | inr inv =>
      intro hb
      rcases cryptoAfter_spec env ocC with hfalse | hmem | hpass
      · have hb2 : isErrBody (cryptoAfter env ocC).body = true := hb
        rw [hb2] at hfalse; exact Bool.noConfusion hfalse
      · left; exact hmem
      · right
        obtain ⟨s, data, hoc, hstat, hrest⟩ := hpass
        exact ⟨s, data, hoc, hstat, hrest⟩

/-- C2 witness: the amended statement applied at a GET request, answered 405,
and at the crypto endpoint with an unparsable upstream body, answered 405 as
well since the method check fires first. -/
theorem C2_error_status_range_witness :
    (createStripeSession envBoth getReq (.session none none)).response.status ∈
      ([400, 405, 500] : List Nat)
    ∧ ((createCryptoPayment envBoth getReq (.response 200 none)).response.status ∈
        ([400, 405, 500, 503] : List Nat)
       ∨ ∃ s data, (FetchOutcome.response 200 (none : Option NPBody)) = .response s (some data)
           ∧ (createCryptoPayment envBoth getReq (.response 200 none)).response.status = s
           ∧ responseOk s = false ∧ s ≠ 400 ∧ s ≠ 401) :=
  ⟨(C2_error_status_range envBoth getReq (.session none none) (.response 200 none)).1 rfl,
   (C2_error_status_range envBoth getReq (.session none none) (.response 200 none)).2 rfl⟩

theorem stripePrepare_inr_items (env : Env) (req : HttpRequest) (cfg : SessionConfig)
    (fd : FormData) (pricing : Pricing) (product : Product) (curr : String)
    (hfd : req.body.formData = some fd) (hp : fd.pricing = some pricing)
    (hpr : fd.product = some product) (hcur : pricing.currency = some curr)
    (h : stripePrepare env req = .inr cfg) :
    cfg.line_items = buildLineItems fd pricing product curr := by
  unfold stripePrepare at h
  simp only [hfd, hp, hpr, hcur] at h
  repeat' split at h
  all_goals first
    | exact Sum.noConfusion h
    | (injection h with h2; subst h2; rfl)

theorem buildLineItems_mem_shipping (fd : FormData) (pricing : Pricing)
    (product : Product) (curr : String) (sh : ℚ)
    (hsh : pricing.shipping = some sh) (h0 : 0 < sh) :
    ∃ item, item ∈ buildLineItems fd pricing product curr
      ∧ (item.name = some "Standard Shipping"
         ∨ item.name = some "Express Shipping (2-5 days)")
      ∧ item.unit_amount = some (jsRoundQ (sh * 100)) := by
  have hpos : positiveNum pricing.shipping = true := by
    rw [hsh]
    simp [positiveNum, truthyNum]
    exact ⟨h0.ne', h0⟩
  simp only [buildLineItems]
  refine ⟨{ currency := strToLower curr
            name := some (if (fd.shipping.bind ShippingChoice.method) == some "express"
              then "Express Shipping (2-5 days)" else "Standard Shipping")
            description := if (fd.shipping.bind ShippingChoice.method) == some "express"
              then "Fast delivery" else "Standard delivery"
            images := []
            unit_amount := jsRoundO (jsMul pricing.shipping (some 100))
            quantity := 1 }, ?_, ?_, ?_⟩
  · simp [hpos]
  · cases hex : ((fd.shipping.bind ShippingChoice.method) == some "express") with
    | false => left; rfl
    | true => right; rfl
  · rw [hsh]
    simp [jsMul, jsRoundO]

theorem buildLineItems_mem_insurance (fd : FormData) (pricing : Pricing)
    (product : Product) (curr : String) (ins : ℚ)
    (hins : pricing.insurance = some ins) (h0 : 0 < ins) :
    ∃ item, item ∈ buildLineItems fd pricing product curr
      ∧ item.name = some "Order Insurance"
      ∧ item.unit_amount = some (jsRoundQ (ins * 100)) := by
  have hpos : positiveNum pricing.insurance = true := by
    rw [hins]
    simp [positiveNum, truthyNum]
    exact ⟨h0.ne', h0⟩
  simp only [buildLineItems]
  refine ⟨{ currency := strToLower curr
            name := some "Order Insurance"
            description := "Protection for your order"
            images := []
            unit_amount := jsRoundO (jsMul pricing.insurance (some 100))
            quantity := 1 }, ?_, rfl, ?_⟩
  · simp [hpos]
  · rw [hins]
    simp [jsMul, jsRoundO]

/-- C3: for every card/ACH request that reaches the provider call, the product
line item unit amount equals round(subtotal / quantity * 100), where subtotal is
the client subtotal when truthy and otherwise basePrice times quantity, and the
shipping and insurance line items, when their cost is present and positive,
carry round(cost * 100). -/
theorem C3_line_item_amounts (env : Env) (req : HttpRequest) (oc : StripeOutcome)
    (cfg : SessionConfig) (fd : FormData) (pricing : Pricing) (product : Product)
    (curr : String)
    (hcall : (createStripeSession env req oc).call = some cfg)
    (hfd : req.body.formData = some fd) (hp : fd.pricing = some pricing)
    (hpr : fd.product = some product) (hcur : pricing.currency = some curr) :
    (∀ s q, jsOrNum pricing.subtotal (jsMul product.basePrice product.quantity) = some s →
      product.quantity = some q → q ≠ 0 →
      ∃ item, cfg.line_items.head? = some item
        ∧ item.unit_amount = some (jsRoundQ (s / q * 100)))
    ∧ (∀ sh, pricing.shipping = some sh → 0 < sh →
      ∃ item, item ∈ cfg.line_items
        ∧ (item.name = some "Standard Shipping"
           ∨ item.name = some "Express Shipping (2-5 days)")
        ∧ item.unit_amount = some (jsRoundQ (sh * 100)))
    ∧ (∀ ins, pricing.insurance = some ins → 0 < ins →
      ∃ item, item ∈ cfg.line_items ∧ item.name = some "Order Insurance"
        ∧ item.unit_amount = some (jsRoundQ (ins * 100))) := by
  have hitems := stripePrepare_inr_items env req cfg fd pricing product curr hfd hp hpr hcur
    (stripe_call_prepare env req oc cfg hcall)
  refine ⟨?_, ?_, ?_⟩
  · intro s q hs hq hq0
    rw [hitems]
    refine ⟨_, rfl, ?_⟩
    show jsRoundO (jsMul (jsDiv (jsOrNum pricing.subtotal
      (jsMul product.basePrice product.quantity)) product.quantity) (some 100)) = _
    rw [hs, hq]
    simp [jsDiv, hq0, jsMul, jsRoundO]
  · intro sh hsh h0
    rw [hitems]
    exact buildLineItems_mem_shipping fd pricing product curr sh hsh h0
  · intro ins hins h0
    rw [hitems]
    exact buildLineItems_mem_insurance fd pricing product curr ins hins h0

/-- The session payload the card handler builds for the full request fixture. -/
def stripeCfgFull : SessionConfig :=
  buildSessionConfig (requestBaseUrl fullReq) fullFormData fullPricing fullProduct
    "USD" false

/-- C3 witness: the theorem applied at a concrete request, giving 97500 cents for
the product item, 2500 for shipping and 1000 for insurance. -/
theorem C3_line_item_amounts_witness :
    (∃ item, stripeCfgFull.line_items.head? = some item
       ∧ item.unit_amount = some (jsRoundQ (1950 / 2 * 100)))
    ∧ (∃ item, item ∈ stripeCfgFull.line_items
       ∧ (item.name = some "Standard Shipping"
          ∨ item.name = some "Express Shipping (2-5 days)")
       ∧ item.unit_amount = some (jsRoundQ (25 * 100)))
    ∧ (∃ item, item ∈ stripeCfgFull.line_items ∧ item.name = some "Order Insurance"
       ∧ item.unit_amount = some (jsRoundQ (10 * 100))) := by
  have h := C3_line_item_amounts envBoth fullReq (.session none none) stripeCfgFull
    fullFormData fullPricing fullProduct "USD" rfl rfl rfl rfl rfl
  exact ⟨h.1 1950 2 rfl rfl (by norm_num), h.2.1 25 rfl (by norm_num),
    h.2.2 10 rfl (by norm_num)⟩

/-- C4: for every crypto request whose upstream call yields a 2xx response with a
parsable body, the handler answers 200 with invoice_url, id, order_id,
created_at, pay_address, pay_amount and pay_currency passed through from the
upstream body when it carries a non-empty invoice_url, and 500 when the body
lacks invoice_url. -/
theorem C4_crypto_success_passthrough (env : Env) (req : HttpRequest)
    (status : Nat) (data : NPBody)
    (hok : responseOk status = true)
    (hcall : (createCryptoPayment env req (.response status (some data))).call.isSome = true) :
    (∀ u, data.invoice_url = some u → u ≠ "" →
      (createCryptoPayment env req (.response status (some data))).response =
        mkResp 200 (.cryptoOk u data.id data.order_id data.created_at data.pay_address
          data.pay_amount data.pay_currency))
    ∧ (data.invoice_url = none →
      (createCryptoPayment env req (.response status (some data))).response =
        mkResp 500 (jsonErr "Invalid payment response received")) := by
  rw [crypto_call_response env req _ hcall]
  simp only [cryptoAfter]
  rw [hok]
  constructor
  · intro u hu hne
    have ht : truthyStr (some u) = true := by
      simp [truthyStr, Bool.eq_false_iff, String.isEmpty_iff]
      exact hne
    rw [hu, ht]
    rfl
  · intro hu
    rw [hu]
    rfl

/-- C4 witness: the passthrough at a 200 upstream body with invoice_url, and the
500 at a 204 upstream body lacking invoice_url. -/
theorem C4_crypto_success_passthrough_witness :
    (createCryptoPayment envBoth fullReq (.response 200 (some npGoodBody))).response =
      mkResp 200 (.cryptoOk "https://nowpayments.example/payment/inv1" (some "inv-1")
        (some "ORD-1") (some "2026-01-01") (some "addr") (some (3/100)) (some "btc"))
    ∧ (createCryptoPayment envBoth fullReq (.response 204 (some npMsgBody))).response =
      mkResp 500 (jsonErr "Invalid payment response received") :=
  ⟨(C4_crypto_success_passthrough envBoth fullReq 200 npGoodBody rfl rfl).1
      "https://nowpayments.example/payment/inv1" rfl (by decide),
   (C4_crypto_success_passthrough envBoth fullReq 204 npMsgBody rfl rfl).2 rfl⟩

/-- C5: a crypto request whose upstream call answers 401 with a parsable body is
answered 500 with the authentication-failed message; one whose upstream answers
400 with a parsable body carrying a non-empty message is answered 400 with that
message echoed in the details field. -/
theorem C5_crypto_401_400 (env : Env) (req : HttpRequest) (data : NPBody) :
    ((createCryptoPayment env req (.response 401 (some data))).call.isSome = true →
      (createCryptoPayment env req (.response 401 (some data))).response =
        mkResp 500 (jsonErr "Payment system authentication failed. Please contact support."))
    ∧ (∀ m, (createCryptoPayment env req (.response 400 (some data))).call.isSome = true →
      data.message = some m → m ≠ "" →
      (createCryptoPayment env req (.response 400 (some data))).response =
        mkResp 400 (.err "Invalid payment details. Please check your information."
          (some m) none none)) := by
  constructor
  · intro hcall
    rw [crypto_call_response env req _ hcall]
    rfl
  · intro m hcall hm hne
    rw [crypto_call_response env req _ hcall]
    simp only [cryptoAfter]
    rw [hm]
    have ht : truthyStr (some m) = true := by
      simp [truthyStr, Bool.eq_false_iff, String.isEmpty_iff]
      exact hne
    simp only [jsOrStr, ht]
    rfl

/-- C5 witness: the theorem applied at upstream 401 and at upstream 400 with a
message. -/
theorem C5_crypto_401_400_witness :
    (createCryptoPayment envBoth fullReq (.response 401 (some npMsgBody))).response =
      mkResp 500 (jsonErr "Payment system authentication failed. Please contact support.")
    ∧ (createCryptoPayment envBoth fullReq (.response 400 (some npMsgBody))).response =
      mkResp 400 (.err "Invalid payment details. Please check your information."
        (some "Too many requests") none none) :=
  ⟨(C5_crypto_401_400 envBoth fullReq npMsgBody).1 rfl,
   (C5_crypto_401_400 envBoth fullReq npMsgBody).2 "Too many requests" rfl rfl (by decide)⟩

/-- C6: a POST whose body lacks formData, formData.pricing or formData.product is
answered 400 by both handlers and neither makes an outbound call. -/
theorem C6_missing_form_data (env : Env) (req : HttpRequest) (ocC : FetchOutcome)
    (ocS : StripeOutcome)
    (hm : req.method = "POST")
    (hmiss : req.body.formData = none
      ∨ ∃ fd, req.body.formData = some fd ∧ (fd.pricing = none ∨ fd.product = none)) :
    (createCryptoPayment env req ocC).response.status = 400
    ∧ (createCryptoPayment env req ocC).call = none
    ∧ (createStripeSession env req ocS).response.status = 400
    ∧ (createStripeSession env req ocS).call = none := by
  have hc : cryptoPrepare env req = .inl (mkResp 400 (jsonErr "Missing required form data")) := by
    rcases hmiss with hfd | ⟨fd, hfd, hmp⟩
    · simp [cryptoPrepare, hm, hfd]
    · rcases hmp with hpri | hprod
      · simp [cryptoPrepare, hm, hfd, hpri]
      · cases hpri : fd.pricing with
        | none => simp [cryptoPrepare, hm, hfd, hpri]
        | some p => simp [cryptoPrepare, hm, hfd, hpri, hprod]
  have hst : stripePrepare env req = .inl (mkResp 400 (jsonErr "Missing required form data")) := by
    rcases hmiss with hfd | ⟨fd, hfd, hmp⟩
    · simp [stripePrepare, hm, hfd]
    · rcases hmp with hpri | hprod
      · simp [stripePrepare, hm, hfd, hpri]
      · cases hpri : fd.pricing with
        | none => simp [stripePrepare, hm, hfd, hpri]
        | some p => simp [stripePrepare, hm, hfd, hpri, hprod]
  refine ⟨?_, ?_, ?_, ?_⟩
  · simp [createCryptoPayment, hc, mkResp]
  · simp [createCryptoPayment, hc]
  · simp [createStripeSession, hst, mkResp]
  · simp [createStripeSession, hst]

/-- C6 witness: the theorem applied at a POST with an empty body. -/
theorem C6_missing_form_data_witness :
    (createCryptoPayment envBoth emptyPostReq (.response 200 none)).response.status = 400
    ∧ (createCryptoPayment envBoth emptyPostReq (.response 200 none)).call = none
    ∧ (createStripeSession envBoth emptyPostReq (.session none none)).response.status = 400
    ∧ (createStripeSession envBoth emptyPostReq (.session none none)).call = none :=
  C6_missing_form_data envBoth emptyPostReq (.response 200 none) (.session none none)
    rfl (Or.inl rfl)

/-- C7 counterexample: a POST with an empty body processed while the crypto
credential is unset is answered 400 by the form-data validation, not 500,
because validation runs before the credential check. -/
theorem C7_counterexample :
    envNone.NOWPAYMENTS_API_KEY = none
    ∧ (createCryptoPayment envNone emptyPostReq (.response 200 none)).response.status = 400
    ∧ (createCryptoPayment envNone emptyPostReq (.response 200 none)).response.status ≠ 500 :=
  ⟨rfl, rfl, by decide⟩

/-- C7 (amended): for every POST request that passes the required-field
validation of its handler while the relevant provider credential is unset, the
handler answers 500 with the configuration-error message and makes no outbound
call. -/
theorem C7_missing_credentials (env : Env) (req : HttpRequest) (ocC : FetchOutcome)
    (ocS : StripeOutcome) (fd : FormData)
    (hm : req.method = "POST") (hfd : req.body.formData = some fd)
    (hpri : fd.pricing.isSome = true) (hprod : fd.product.isSome = true) :
    (env.NOWPAYMENTS_API_KEY = none → fd.customer.isSome = true →
      (createCryptoPayment env req ocC).response =
        mkResp 500 (jsonErr "Payment system configuration error")
      ∧ (createCryptoPayment env req ocC).call = none)
    ∧ (env.STRIPE_SECRET_KEY = none →
      (createStripeSession env req ocS).response =
        mkResp 500 (jsonErr "Payment system configuration error")
      ∧ (createStripeSession env req ocS).call = none) := by
  constructor
  · intro hkey hcust
    obtain ⟨pricing, hpri2⟩ := Option.isSome_iff_exists.mp hpri
    obtain ⟨product, hprod2⟩ := Option.isSome_iff_exists.mp hprod
    obtain ⟨customer, hcust2⟩ := Option.isSome_iff_exists.mp hcust
    have hc : cryptoPrepare env req =
        .inl (mkResp 500 (jsonErr "Payment system configuration error")) := by
      simp [cryptoPrepare, hm, hfd, hpri2, hprod2, hcust2, hkey, truthyStr]
    exact ⟨by simp [createCryptoPayment, hc], by simp [createCryptoPayment, hc]⟩
  · intro hkey
    obtain ⟨pricing, hpri2⟩ := Option.isSome_iff_exists.mp hpri
    obtain ⟨product, hprod2⟩ := Option.isSome_iff_exists.mp hprod
    have hst : stripePrepare env req =
        .inl (mkResp 500 (jsonErr "Payment system configuration error")) := by
      simp [stripePrepare, hm, hfd, hpri2, hprod2, hkey, truthyStr]
    exact ⟨by simp [createStripeSession, hst], by simp [createStripeSession, hst]⟩

/-- C7 witness: the amended statement applied at a fully populated POST with
both credentials unset. -/
theorem C7_missing_credentials_witness :
    ((createCryptoPayment envNone fullReq (.response 200 none)).response =
        mkResp 500 (jsonErr "Payment system configuration error")
      ∧ (createCryptoPayment envNone fullReq (.response 200 none)).call = none)
    ∧ ((createStripeSession envNone fullReq (.session none none)).response =
        mkResp 500 (jsonErr "Payment system configuration error")
      ∧ (createStripeSession envNone fullReq (.session none none)).call = none) := by
  have h := C7_missing_credentials envNone fullReq (.response 200 none) (.session none none)
    fullFormData rfl rfl rfl rfl
  exact ⟨h.1 rfl rfl, h.2 rfl⟩

/-- C8: an ACH request whose pricing currency is not USD case-insensitively is
answered 400 and no provider call is made, stated for a POST that passed
validation with the secret key configured, the conditions under which the ACH
branch can be reached. -/
theorem C8_ach_non_usd (env : Env) (req : HttpRequest) (oc : StripeOutcome)
    (fd : FormData) (pricing : Pricing) (product : Product) (curr : String)
    (hm : req.method = "POST") (hpt : req.body.paymentType = some "ach")
    (hfd : req.body.formData = some fd) (hpri : fd.pricing = some pricing)
    (hprod : fd.product = some product)
    (hkey : truthyStr env.STRIPE_SECRET_KEY = true)
    (hcur : pricing.currency = some curr) (husd : strToUpper curr ≠ "USD") :
    (createStripeSession env req oc).response =
      mkResp 400 (jsonErr "ACH payments only support USD currency.")
    ∧ (createStripeSession env req oc).call = none := by
  have hst : stripePrepare env req =
      .inl (mkResp 400 (jsonErr "ACH payments only support USD currency.")) := by
    simp [stripePrepare, hm, hfd, hpri, hprod, hcur, hkey, hpt, husd]
  exact ⟨by simp [createStripeSession, hst], by simp [createStripeSession, hst]⟩

/-- A pricing object in euros. -/
def eurPricing : Pricing :=
  { total := some 1999, currency := some "EUR", subtotal := some 1950
    shipping := none, insurance := none }

/-- Form data carrying the euro pricing. -/
def eurFormData : FormData :=
  { pricing := some eurPricing, product := some fullProduct
    customer := some fullCustomer, orderRef := some "ORD-2", shipping := none }

/-- A POST request asking for ACH with euro pricing. -/
def achEurReq : HttpRequest :=
  { method := "POST"
    headers := { origin := none, referer := none }
    body := { formData := some eurFormData, paymentType := some "ach" } }

/-- C8 witness: the theorem applied at an ACH request priced in euros. -/
theorem C8_ach_non_usd_witness :
    (createStripeSession envBoth achEurReq (.session none none)).response =
      mkResp 400 (jsonErr "ACH payments only support USD currency.")
    ∧ (createStripeSession envBoth achEurReq (.session none none)).call = none :=
  C8_ach_non_usd envBoth achEurReq (.session none none) eurFormData eurPricing
    fullProduct "EUR" rfl rfl rfl rfl rfl rfl rfl (by decide)

/-- C10: the crypto handler also requires formData.customer: a POST carrying
formData, pricing and product but no customer is answered 400 with no outbound
call by the crypto handler, while the card/ACH handler accepts it and proceeds
to the provider call, given a configured secret key, a present currency, and
USD currency whenever ACH was requested. -/
theorem C10_customer_requirement (env : Env) (req : HttpRequest) (ocC : FetchOutcome)
    (ocS : StripeOutcome) (fd : FormData) (pricing : Pricing) (product : Product)
    (hm : req.method = "POST") (hfd : req.body.formData = some fd)
    (hpri : fd.pricing = some pricing) (hprod : fd.product = some product)
    (hcust : fd.customer = none) :
    ((createCryptoPayment env req ocC).response.status = 400
      ∧ (createCryptoPayment env req ocC).call = none)
    ∧ (∀ curr, truthyStr env.STRIPE_SECRET_KEY = true →
      pricing.currency = some curr →
      (req.body.paymentType.getD "card" = "ach" → strToUpper curr = "USD") →
      (createStripeSession env req ocS).call.isSome = true) := by
  constructor
  · have hc : cryptoPrepare env req =
        .inl (mkResp 400 (jsonErr "Missing required form data")) := by
      simp [cryptoPrepare, hm, hfd, hpri, hprod, hcust]
    exact ⟨by simp [createCryptoPayment, hc, mkResp], by simp [createCryptoPayment, hc]⟩
  · intro curr hkey hcur hach
    by_cases hpt : req.body.paymentType.getD "card" = "ach"
    · have husd := hach hpt
      have hst : stripePrepare env req =
          .inr (buildSessionConfig (requestBaseUrl req) fd pricing product curr true) := by
        simp [stripePrepare, hm, hfd, hpri, hprod, hcur, hkey, hpt, husd]
      simp [createStripeSession, hst]
    · have hst : stripePrepare env req =
          .inr (buildSessionConfig (requestBaseUrl req) fd pricing product curr false) := by
        simp [stripePrepare, hm, hfd, hpri, hprod, hcur, hkey, hpt]
      simp [createStripeSession, hst]

/-- Form data without a customer object. -/
def noCustFormData : FormData :=
  { pricing := some fullPricing, product := some fullProduct
    customer := none, orderRef := some "ORD-3", shipping := none }

/-- A POST request carrying form data without a customer. -/
def noCustReq : HttpRequest :=
  { method := "POST", headers := { origin := none, referer := none }
    body := { formData := some noCustFormData, paymentType := none } }

/-- C10 witness: the theorem applied at a customer-less POST. -/
theorem C10_customer_requirement_witness :
    ((createCryptoPayment envBoth noCustReq (.response 200 none)).response.status = 400
      ∧ (createCryptoPayment envBoth noCustReq (.response 200 none)).call = none)
    ∧ (createStripeSession envBoth noCustReq (.session none none)).call.isSome = true := by
  have h := C10_customer_requirement envBoth noCustReq (.response 200 none)
    (.session none none) noCustFormData fullPricing fullProduct rfl rfl rfl rfl rfl
  exact ⟨h.1, h.2 "USD" rfl rfl (fun _ => rfl)⟩
